import Mathlib

/-!
Verification development for the pm2-web-manager control panel
(`src/server.js`). The HTTP routes, the path sandboxing checks, the
authentication gate and the supervisor readiness gate are shallowly
embedded as pure Lean functions; filesystem state and the external
supervisor are modelled as oracles passed to each route, and the side
effects a route performs are recorded as an explicit event trace.
-/

namespace PM2WM

/-! ## Path model

`path.resolve(base, p)` for an absolute `base` (the configured
`PM2_BASE_DIR`, default `/home/omega`) is purely lexical: split on `/`,
drop empty and `.` segments, let `..` pop one segment (staying at the
root when there is none), and an absolute second argument overrides the
base. `jsStartsWith` models the JavaScript `String.prototype.startsWith`
used by the containment checks at server.js:128 and server.js:183.
-/

def splitChars (sep : Char) : List Char → List (List Char)
  | [] => [[]]
  | c :: cs =>
    if c = sep then [] :: splitChars sep cs
    else
      match splitChars sep cs with
      | [] => [[c]]
      | g :: gs => (c :: g) :: gs

/-- Raw `/`-separated segments of a path string, empty pieces kept. -/
def rawPieces (s : String) : List String :=
  (splitChars '/' s.toList).map (fun l => String.mk l)

/-- Nonempty `/`-separated segments of a path string. -/
def rawSegs (s : String) : List String :=
  (rawPieces s).filter (fun seg => !seg.isEmpty)

/-- One step of lexical normalization, as `path.resolve` performs on an
absolute path: `..` pops, `.` and empty segments vanish. -/
def normStep (acc : List String) (seg : String) : List String :=
  if seg.isEmpty then acc
  else if seg = "." then acc
  else if seg = ".." then acc.dropLast
  else acc ++ [seg]

def normalizeSegs (l : List String) : List String :=
  l.foldl normStep []

/-- Render an absolute path from its segments. -/
def renderAbs (segs : List String) : String :=
  "/" ++ String.intercalate "/" segs

/-- Model of `String.prototype.startsWith`. -/
def jsStartsWith (s pre : String) : Bool :=
  pre.toList.isPrefixOf s.toList

/-- Model of `String.prototype.endsWith`. -/
def jsEndsWith (s suf : String) : Bool :=
  suf.toList.isSuffixOf s.toList

/-- Segment list of `path.resolve(base, p)` for an absolute `base`. -/
def resolveSegs (base p : String) : List String :=
  if jsStartsWith p "/" then normalizeSegs (rawPieces p)
  else normalizeSegs (rawPieces base ++ rawPieces p)

/-- Model of `path.resolve(base, p)` (server.js:127, server.js:180). -/
def resolvePath (base p : String) : String :=
  renderAbs (resolveSegs base p)

/-- Model of `path.resolve(BASE_DIR)` (server.js:128, server.js:183). -/
def resolveBase (base : String) : String :=
  renderAbs (normalizeSegs (rawPieces base))

/-- Model of `path.dirname` on an already-resolved absolute path
(server.js:134). -/
def dirname (p : String) : String :=
  renderAbs ((rawSegs p).dropLast)

/-- The specified notion of containment: the resolved path lies under the
base directory at a path-segment boundary. -/
def segWithin (base p : String) : Bool :=
  (normalizeSegs (rawPieces base)).isPrefixOf (resolveSegs base p)

/-! ## Server model

Each route of server.js becomes a pure function from its inputs — the
configured base directory, a filesystem oracle, a supervisor oracle, the
parsed request — to a response together with the trace of side effects
(filesystem probes and reads, containment checks, supervisor calls) in
the order the code performs them.
-/

/-- The slice of a pm2 process description the logs route reads
(server.js:166). -/
structure PDesc where
  pm_err_log_path : String
  pm_out_log_path : String
  deriving Repr, DecidableEq

/-- Oracle for the external supervisor (the pm2 module): outcome of
`pm2.start`, of `pm2.restart`/`pm2.stop`/`pm2.delete` per action and
target, of `pm2.list`, and the result of `pm2.describe` (`none` models
an error, `some []` an empty description list). -/
structure Sup where
  listErr : Option String
  startErr : Option String
  actionErr : String → String → Option String
  describe : String → Option (List PDesc)

/-- A directory entry as returned by `fs.readdirSync` with file types
(server.js:187). -/
structure Entry where
  name : String
  isDirectory : Bool
  isFile : Bool
  deriving Repr, DecidableEq

/-- Side effects a route performs, in order. -/
inductive Ev where
  | evFsExists (p : String)
  | evCheck (p : String) (passed : Bool)
  | evReadDir (p : String)
  | evReadStream (p : String)
  | evSupList
  | evSupStart (script name : String) (args : List String) (instances : Int)
      (execMode cwd : String)
  | evSupAction (action target : String)
  | evSupDescribe (id : String)
  | evSessionDestroy
  deriving Repr, DecidableEq

/-- The responses server.js produces, by shape. -/
inductive Resp where
  | unauthorized
  | notReady
  | badRequest (msg : String)
  | forbidden (msg : String)
  | serverError (msg : String)
  | notFound (msg : String)
  | okMsg (msg : String)
  | loginFail
  | okErr (ok : Bool) (error : Option String)
  | okStart
  | textBody (s : String)
  | textStream (p : String)
  | browseOk (path : String) (dirs files : List String)
  | procList
  deriving Repr, DecidableEq

def Resp.statusCode : Resp → Nat
  | .unauthorized => 401
  | .notReady => 503
  | .badRequest _ => 400
  | .forbidden _ => 403
  | .serverError _ => 500
  | .notFound _ => 404
  | .okMsg _ => 200
  | .loginFail => 401
  | .okErr _ _ => 200
  | .okStart => 200
  | .textBody _ => 200
  | .textStream _ => 200
  | .browseOk _ _ _ => 200
  | .procList => 200

/-- Body of `POST /api/start` before the defaults of the destructuring
`{ script, name, args = [], instances = 1, exec_mode = 'fork' }`
(server.js:124) are applied; absent JSON fields are `none`. -/
structure StartBody where
  script : Option String
  name : Option String
  args : Option (List String)
  instances : Option Int
  exec_mode : Option String
  deriving Repr, DecidableEq

/-- JavaScript falsiness of an optional string: `undefined` and the empty
string are falsy (the `!script || !name` guard at server.js:125). -/
def falsyStr : Option String → Bool
  | none => true
  | some s => s.isEmpty

/-- `POST /api/start` (server.js:122-141), after the `withPM2` readiness
gate. Note the evaluation order of server.js:128: `fs.existsSync` runs
first; the containment check runs only when the file exists. -/
def startRoute (base : String) (fs : String → Bool) (sup : Sup) (b : StartBody) :
    Resp × List Ev :=
  if falsyStr b.script || falsyStr b.name then
    (Resp.badRequest "script and name are required", [])
  else
    let scriptPath := resolvePath base (b.script.getD "")
    if fs scriptPath = false then
      (Resp.forbidden "Script path not allowed or does not exist",
        [Ev.evFsExists scriptPath])
    else if jsStartsWith scriptPath (resolveBase base) = false then
      (Resp.forbidden "Script path not allowed or does not exist",
        [Ev.evFsExists scriptPath, Ev.evCheck scriptPath false])
    else
      let tr := [Ev.evFsExists scriptPath, Ev.evCheck scriptPath true,
        Ev.evSupStart scriptPath (b.name.getD "") (b.args.getD [])
          (b.instances.getD 1) (b.exec_mode.getD "fork") (dirname scriptPath)]
      match sup.startErr with
      | some e => (Resp.serverError e, tr)
      | none => (Resp.okStart, tr)

/-- `GET /api/browse` (server.js:177-196). Not wrapped in `withPM2`. The
filesystem oracle returns `none` when `fs.readdirSync` throws. -/
def browseRoute (base : String) (fsDir : String → Option (List Entry))
    (qdir : Option String) : Resp × List Ev :=
  let reqDir := (qdir.getD "")
  let currentDir := resolvePath base reqDir
  if jsStartsWith currentDir (resolveBase base) = false then
    (Resp.forbidden "Access denied", [Ev.evCheck currentDir false])
  else
    match fsDir currentDir with
    | none =>
      (Resp.serverError "Could not read directory. Verify it exists and you have permissions.",
        [Ev.evCheck currentDir true, Ev.evReadDir currentDir])
    | some entries =>
      (Resp.browseOk reqDir
        ((entries.filter (fun e => e.isDirectory)).map (fun e => e.name))
        ((entries.filter (fun e => e.isFile && jsEndsWith e.name ".js")).map (fun e => e.name)),
        [Ev.evCheck currentDir true, Ev.evReadDir currentDir])

/-- The log path the logs route selects (server.js:166): the stderr path
exactly when the query parameter equals the string `err`. -/
def selLogPath (qtype : Option String) (d : PDesc) : String :=
  if qtype == some "err" then d.pm_err_log_path else d.pm_out_log_path

/-- `GET /api/logs/:id` (server.js:162-174), after the `withPM2` gate. -/
def logsRoute (fs : String → Bool) (sup : Sup) (id : String)
    (qtype : Option String) : Resp × List Ev :=
  match sup.describe id with
  | none => (Resp.notFound "Process not found", [Ev.evSupDescribe id])
  | some [] => (Resp.notFound "Process not found", [Ev.evSupDescribe id])
  | some (d :: _) =>
    let logPath := selLogPath qtype d
    if fs logPath = false then
      (Resp.textBody ("Log for " ++ qtype.getD "undefined" ++ " not found."),
        [Ev.evSupDescribe id, Ev.evFsExists logPath])
    else
      (Resp.textStream logPath,
        [Ev.evSupDescribe id, Ev.evFsExists logPath, Ev.evReadStream logPath])

/-- `POST /api/restart/:id`, `POST /api/stop/:id`, `DELETE /api/delete/:id`,
and the global actions (server.js:144-159): a single supervisor call whose
error determines the `{ok, error}` body. -/
def actionRoute (sup : Sup) (action id : String) : Resp × List Ev :=
  let e := sup.actionErr action id
  (Resp.okErr e.isNone e, [Ev.evSupAction action id])

/-- `GET /api/processes` (server.js:108-119), after the `withPM2` gate. -/
def processesRoute (sup : Sup) : Resp × List Ev :=
  match sup.listErr with
  | some e => (Resp.serverError e, [Ev.evSupList])
  | none => (Resp.procList, [Ev.evSupList])

/-! ## Dispatch: readiness gate, authentication gate, route table -/

/-- The operations registered on the `/api` router (server.js:104-196). -/
inductive ApiOp where
  | processes
  | start (b : StartBody)
  | restart (id : String)
  | stop (id : String)
  | del (id : String)
  | restartAll
  | stopAll
  | logs (id : String) (qtype : Option String)
  | browse (dir : Option String)

/-- Ambient state of the running server: the filesystem, the supervisor,
the `pm2Ready` flag (server.js:79), and whether `req.session.destroy`
fails. -/
structure World where
  fsExists : String → Bool
  fsDir : String → Option (List Entry)
  sup : Sup
  ready : Bool
  destroyErr : Bool

/-- `withPM2` (server.js:95-101): when the ready flag is unset the wrapped
operation is not run and a 503 is returned. -/
def withPM2 (ready : Bool) (k : Resp × List Ev) : Resp × List Ev :=
  if ready then k else (Resp.notReady, [])

/-- The `/api` route table. `withPM2` wraps every handler except browse,
exactly as in server.js (the browse handler at server.js:177 performs no
readiness check). -/
def apiHandle (base : String) (w : World) : ApiOp → Resp × List Ev
  | .processes => withPM2 w.ready (processesRoute w.sup)
  | .start b => withPM2 w.ready (startRoute base w.fsExists w.sup b)
  | .restart id => withPM2 w.ready (actionRoute w.sup "restart" id)
  | .stop id => withPM2 w.ready (actionRoute w.sup "stop" id)
  | .del id => withPM2 w.ready (actionRoute w.sup "delete" id)
  | .restartAll => withPM2 w.ready (actionRoute w.sup "restart" "all")
  | .stopAll => withPM2 w.ready (actionRoute w.sup "stop" "all")
  | .logs id t => withPM2 w.ready (logsRoute w.fsExists w.sup id t)
  | .browse d => browseRoute base w.fsDir d

/-- Startup configuration (server.js:15-19). -/
structure Config where
  base : String
  adminUser : String
  adminPassword : String

/-- `POST /login` (server.js:49-57). The session flag is the incoming
`req.session.loggedIn` (absent models as `false`); the result carries the
response, the trace, and the outgoing session flag. -/
def loginRoute (cfg : Config) (loggedIn : Bool) (u p : Option String) :
    Resp × List Ev × Bool :=
  if u == some cfg.adminUser && p == some cfg.adminPassword then
    (Resp.okMsg "Login successful", [], true)
  else
    (Resp.loginFail, [], loggedIn)

/-- `POST /logout` (server.js:59-67): destroys the session; 500 when the
destroy callback reports an error. -/
def logoutRoute (w : World) (loggedIn : Bool) : Resp × List Ev × Bool :=
  if w.destroyErr then
    (Resp.serverError "Could not log out", [Ev.evSessionDestroy], loggedIn)
  else
    (Resp.okMsg "Session closed", [Ev.evSessionDestroy], false)

/-- `requireAuth` (server.js:70-76): the request passes the gate exactly
when the session is marked logged in. -/
def requireAuth (loggedIn : Bool) : Bool := loggedIn

/-- The routes server.js registers directly on the app plus the `/api`
router. `/login` and `/logout` are registered before the router and are
not behind `requireAuth` (server.js:49, server.js:59, server.js:105). -/
inductive Route where
  | login (username password : Option String)
  | logout
  | api (op : ApiOp)

/-- Top-level request handling: `requireAuth` is applied by
`apiRouter.use` to every `/api` operation and to nothing else. -/
def handle (cfg : Config) (w : World) (loggedIn : Bool) :
    Route → Resp × List Ev × Bool
  | .login u p => loginRoute cfg loggedIn u p
  | .logout => logoutRoute w loggedIn
  | .api op =>
    if requireAuth loggedIn then
      ((apiHandle cfg.base w op).1, (apiHandle cfg.base w op).2, loggedIn)
    else
      (Resp.unauthorized, [], loggedIn)

/-! ## Trace predicates -/

/-- Filesystem operations on a path. -/
def isFsOp : Ev → Bool
  | .evFsExists _ => true
  | .evReadDir _ => true
  | .evReadStream _ => true
  | _ => false

/-- A containment check that passed. -/
def isPassedCheck : Ev → Bool
  | .evCheck _ true => true
  | _ => false

/-- A dispatch of the supervisor start operation. -/
def isSupDispatch : Ev → Bool
  | .evSupStart _ _ _ _ _ _ => true
  | _ => false

/-- `opsGuarded isOp checked tr` holds when every event selected by
`isOp` in `tr` occurs after a containment check has passed (or `checked`
was already true at entry). -/
def opsGuarded (isOp : Ev → Bool) : Bool → List Ev → Bool
  | _, [] => true
  | checked, e :: rest =>
    (!isOp e || checked) && opsGuarded isOp (checked || isPassedCheck e) rest

/-! ## Concrete oracles used to instantiate the theorems -/

/-- A supervisor on which every operation succeeds and no process is
known. -/
def supOk : Sup := ⟨none, none, fun _ _ => none, fun _ => none⟩

/-- A supervisor knowing exactly the process with id `1`. -/
def supBook : Sup :=
  ⟨none, none, fun _ _ => none,
    fun id => if id = "1" then some [⟨"/logs/e1.log", "/logs/o1.log"⟩] else none⟩

def cfg0 : Config := ⟨"/home/omega", "admin", "hunter2"⟩

def wReady : World := ⟨fun _ => false, fun _ => some [], supOk, true, false⟩

def wNotReady : World := ⟨fun _ => false, fun _ => some [], supOk, false, false⟩

/-- The action-route body `{ok: !err, error: err ? String(err) : null}` as
a function of the supervisor error. -/
theorem okErr_spec (e : Option String) :
    (Resp.okErr e.isNone e = Resp.okErr true none ↔ e = none) ∧
    (∀ s, e = some s → Resp.okErr e.isNone e = Resp.okErr false (some s)) := by
  cases e <;> simp

/-! ## Claims -/

/-- Claim C1: the claim asserts that a request whose path resolves to a
sibling of the base directory (such as `baseDir + "-evil"`) is rejected,
the containment check being on path-segment boundaries rather than a raw
string prefix. The code uses the raw `String.prototype.startsWith` check
(server.js:183), so with base `/home/omega` the browse request
`dir=../omega-evil` resolves to `/home/omega-evil`, passes the check,
and the directory outside the sandbox is read and served with a 200. -/
theorem c1_raw_prefix_sandbox_bypass :
    (browseRoute "/home/omega" (fun _ => some []) (some "../omega-evil")).1
        = Resp.browseOk "../omega-evil" [] [] ∧
    (browseRoute "/home/omega" (fun _ => some []) (some "../omega-evil")).2
        = [Ev.evCheck "/home/omega-evil" true, Ev.evReadDir "/home/omega-evil"] ∧
    resolvePath "/home/omega" "../omega-evil" = "/home/omega-evil" ∧
    jsStartsWith "/home/omega-evil" "/home/omega" = true ∧
    segWithin "/home/omega" "../omega-evil" = false := by
  decide

/-- Claim C2 counterexample: an existence probe (`fs.existsSync`,
server.js:128) is a filesystem operation applied to the resolved
user-derived script path before the containment check runs; when the
file is missing, the route finishes with no containment check having
been performed at all, so the trace violates the guarded-by-check
discipline the claim asserts. -/
theorem c2_fs_op_before_check :
    opsGuarded isFsOp false
        (startRoute "/home/omega" (fun _ => false) supOk
          ⟨some "x.js", some "w", none, none, none⟩).2 = false ∧
    (startRoute "/home/omega" (fun _ => false) supOk
        ⟨some "x.js", some "w", none, none, none⟩).2
      = [Ev.evFsExists "/home/omega/x.js"] := by
  decide

/-- Claim C2, amended: in the browse route every filesystem operation on
the user-derived path follows a passed containment check, and in the
start route the supervisor start dispatch follows a passed containment
check; but the existence probe of the start route precedes the check. -/
theorem c2_check_before_use (base : String) (fsd : String → Option (List Entry))
    (fs : String → Bool) (sup : Sup) (b : StartBody) (q : Option String) :
    opsGuarded isFsOp false (browseRoute base fsd q).2 = true ∧
    opsGuarded isSupDispatch false (startRoute base fs sup b).2 = true := by
  constructor
  · unfold browseRoute
    dsimp only
    repeat' first | rfl | split
  · unfold startRoute
    dsimp only
    repeat' first | rfl | split

/-- Claim C5: the claim asserts that a start request whose script path
resolves outside the base directory is rejected with 403 and the
supervisor is never invoked. With base `/home/omega`, the script
`../omega-evil/x.js` resolves to `/home/omega-evil/x.js` — outside the
base directory at segment granularity — yet when that file exists the
raw string-prefix check of server.js:128 passes and `pm2.start` is
dispatched on it with a 200 response. -/
theorem c5_start_outside_base_dispatched :
    (startRoute "/home/omega" (fun p => p == "/home/omega-evil/x.js") supOk
        ⟨some "../omega-evil/x.js", some "evil", none, none, none⟩).1
      = Resp.okStart ∧
    (startRoute "/home/omega" (fun p => p == "/home/omega-evil/x.js") supOk
        ⟨some "../omega-evil/x.js", some "evil", none, none, none⟩).2
      = [Ev.evFsExists "/home/omega-evil/x.js",
         Ev.evCheck "/home/omega-evil/x.js" true,
         Ev.evSupStart "/home/omega-evil/x.js" "evil" [] 1 "fork" "/home/omega-evil"] ∧
    segWithin "/home/omega" "../omega-evil/x.js" = false := by
  decide

/-- Claim C3 counterexample: the claim asserts `requireAuth` also gates
logout. The logout handler is registered directly on the app
(server.js:59), before the authenticated router, so a request with no
authenticated session reaches the session-destroy business logic and is
answered 200, not 401. -/
theorem c3_logout_not_gated :
    handle cfg0 wReady false Route.logout
      = (Resp.okMsg "Session closed", [Ev.evSessionDestroy], false) ∧
    Resp.statusCode (handle cfg0 wReady false Route.logout).1 = 200 := by
  decide

/-- Claim C3, amended: `requireAuth` is applied to every `/api` operation
(list, start, restart, stop, delete, restart-all, stop-all, logs,
browse) but to neither login nor logout; every `/api` request whose
session is not marked authenticated is answered 401 unauthorized with no
business logic executed, and an authenticated `/api` request is passed
through to its handler. -/
theorem c3_api_requires_auth (cfg : Config) (w : World) (op : ApiOp) :
    handle cfg w false (Route.api op) = (Resp.unauthorized, [], false) ∧
    Resp.statusCode (handle cfg w false (Route.api op)).1 = 401 ∧
    (handle cfg w true (Route.api op)).1 = (apiHandle cfg.base w op).1 := by
  refine ⟨rfl, rfl, rfl⟩

/-- Claim C4 counterexample: the claim asserts that browse, too, answers
503 while the supervisor connection is not ready. The browse handler
(server.js:177) is the one protected route not wrapped in `withPM2`: with
the ready flag unset it still resolves the path, reads the directory and
answers 200. -/
theorem c4_browse_ignores_ready :
    wNotReady.ready = false ∧
    (apiHandle "/home/omega" wNotReady (ApiOp.browse none)).1
        = Resp.browseOk "" [] [] ∧
    (apiHandle "/home/omega" wNotReady (ApiOp.browse none)).2
        = [Ev.evCheck "/home/omega" true, Ev.evReadDir "/home/omega"] := by
  decide

/-- Which `/api` handlers server.js wraps in `withPM2`: all of them
except browse (server.js:109, 123, 146, 150, 157, 163 versus 177). -/
def opUsesWithPM2 : ApiOp → Bool
  | .browse _ => false
  | _ => true

/-- Claim C4, amended: until the ready flag is set, every protected
operation except browse — list, start, restart, stop, delete,
restart-all, stop-all, and logs — returns the 503 service-unavailable
response with no side effect; browse performs no readiness check. -/
theorem c4_not_ready_503 (base : String) (w : World) (op : ApiOp)
    (h : w.ready = false) (hop : opUsesWithPM2 op = true) :
    apiHandle base w op = (Resp.notReady, []) ∧
    Resp.statusCode (apiHandle base w op).1 = 503 := by
  cases op <;> simp_all [apiHandle, withPM2, opUsesWithPM2, Resp.statusCode]

/-- Witness for C4 amended, at the list and logs operations of a concrete
not-ready world. -/
theorem c4_not_ready_503_witness :
    apiHandle "/home/omega" wNotReady ApiOp.processes = (Resp.notReady, []) ∧
    apiHandle "/home/omega" wNotReady (ApiOp.logs "3" none) = (Resp.notReady, []) :=
  ⟨(c4_not_ready_503 "/home/omega" wNotReady ApiOp.processes rfl rfl).1,
   (c4_not_ready_503 "/home/omega" wNotReady (ApiOp.logs "3" none) rfl rfl).1⟩

/-- Claim C6: login with the configured admin username and password marks
the session authenticated and answers success; with either field wrong it
answers 401 and leaves the session flag as it was. -/
theorem c6_login_correct (cfg : Config) (s : Bool) (u p : Option String) :
    (u = some cfg.adminUser ∧ p = some cfg.adminPassword →
      loginRoute cfg s u p = (Resp.okMsg "Login successful", [], true)) ∧
    (u ≠ some cfg.adminUser ∨ p ≠ some cfg.adminPassword →
      loginRoute cfg s u p = (Resp.loginFail, [], s) ∧
      Resp.statusCode (loginRoute cfg s u p).1 = 401) := by
  constructor
  · rintro ⟨rfl, rfl⟩
    simp [loginRoute]
  · intro h
    have hb : (u == some cfg.adminUser && p == some cfg.adminPassword) = false := by
      cases hu : u == some cfg.adminUser
      · simp
      · cases hp : p == some cfg.adminPassword
        · simp
        · exfalso
          rcases h with h | h
          · exact h (eq_of_beq hu)
          · exact h (eq_of_beq hp)
    have hr : loginRoute cfg s u p = (Resp.loginFail, [], s) := by
      simp [loginRoute, hb]
    exact ⟨hr, by rw [hr]; rfl⟩

/-- Witness for C6 at a concrete configuration: correct credentials log
in; a wrong password is refused and the session flag stays false. -/
theorem c6_login_correct_witness :
    loginRoute cfg0 false (some "admin") (some "hunter2")
        = (Resp.okMsg "Login successful", [], true) ∧
    loginRoute cfg0 false (some "admin") (some "wrong")
        = (Resp.loginFail, [], false) :=
  ⟨(c6_login_correct cfg0 false (some "admin") (some "hunter2")).1 ⟨rfl, rfl⟩,
   ((c6_login_correct cfg0 false (some "admin") (some "wrong")).2
      (Or.inr (by decide))).1⟩

/-- Claim C7: when the supervisor does not know the process id — describe
errors or returns an empty list — the logs route answers 404 not-found;
when the process is known but the selected log file is missing on disk,
it answers a 200 plain-text placeholder rather than an error. -/
theorem c7_logs_not_found_and_placeholder (fs : String → Bool) (sup : Sup)
    (id : String) (t : Option String) :
    (sup.describe id = none ∨ sup.describe id = some [] →
      logsRoute fs sup id t
        = (Resp.notFound "Process not found", [Ev.evSupDescribe id]) ∧
      Resp.statusCode (logsRoute fs sup id t).1 = 404) ∧
    (∀ d rest, sup.describe id = some (d :: rest) → fs (selLogPath t d) = false →
      logsRoute fs sup id t
        = (Resp.textBody ("Log for " ++ t.getD "undefined" ++ " not found."),
           [Ev.evSupDescribe id, Ev.evFsExists (selLogPath t d)]) ∧
      Resp.statusCode (logsRoute fs sup id t).1 = 200) := by
  constructor
  · rintro (h | h) <;> simp [logsRoute, h, Resp.statusCode]
  · intro d rest h hf
    simp [logsRoute, h, hf, Resp.statusCode]

/-- Witness for C7: an unknown id is answered 404; a known process whose
log file is absent is answered with the 200 placeholder text. -/
theorem c7_logs_witness :
    logsRoute (fun _ => false) supBook "9" none
        = (Resp.notFound "Process not found", [Ev.evSupDescribe "9"]) ∧
    logsRoute (fun _ => false) supBook "1" none
        = (Resp.textBody ("Log for " ++ (none : Option String).getD "undefined" ++ " not found."),
           [Ev.evSupDescribe "1", Ev.evFsExists "/logs/o1.log"]) :=
  ⟨((c7_logs_not_found_and_placeholder (fun _ => false) supBook "9" none).1
      (Or.inl (by decide))).1,
   ((c7_logs_not_found_and_placeholder (fun _ => false) supBook "1" none).2
      ⟨"/logs/e1.log", "/logs/o1.log"⟩ [] (by decide) rfl).1⟩

/-- Claim C8: each of restart(id), stop(id) and delete(id) performs
exactly one supervisor call — the trace holds a single action event, so
there is no retry — and answers `{ok, error}` with `ok` true exactly when
the supervisor reported no error and `error` carrying the failure string
(otherwise null). -/
theorem c8_single_call_ok_iff_no_error (base : String) (w : World) (id : String)
    (h : w.ready = true) :
    ((apiHandle base w (ApiOp.restart id)).2 = [Ev.evSupAction "restart" id] ∧
      ((apiHandle base w (ApiOp.restart id)).1 = Resp.okErr true none ↔
        w.sup.actionErr "restart" id = none) ∧
      ∀ e, w.sup.actionErr "restart" id = some e →
        (apiHandle base w (ApiOp.restart id)).1 = Resp.okErr false (some e)) ∧
    ((apiHandle base w (ApiOp.stop id)).2 = [Ev.evSupAction "stop" id] ∧
      ((apiHandle base w (ApiOp.stop id)).1 = Resp.okErr true none ↔
        w.sup.actionErr "stop" id = none) ∧
      ∀ e, w.sup.actionErr "stop" id = some e →
        (apiHandle base w (ApiOp.stop id)).1 = Resp.okErr false (some e)) ∧
    ((apiHandle base w (ApiOp.del id)).2 = [Ev.evSupAction "delete" id] ∧
      ((apiHandle base w (ApiOp.del id)).1 = Resp.okErr true none ↔
        w.sup.actionErr "delete" id = none) ∧
      ∀ e, w.sup.actionErr "delete" id = some e →
        (apiHandle base w (ApiOp.del id)).1 = Resp.okErr false (some e)) := by
  have key : ∀ a : String,
      (actionRoute w.sup a id).2 = [Ev.evSupAction a id] ∧
      ((actionRoute w.sup a id).1 = Resp.okErr true none ↔
        w.sup.actionErr a id = none) ∧
      ∀ e, w.sup.actionErr a id = some e →
        (actionRoute w.sup a id).1 = Resp.okErr false (some e) := by
    intro a
    refine ⟨rfl, ?_, ?_⟩
    · have := (okErr_spec (w.sup.actionErr a id)).1
      exact this
    · intro e he
      exact (okErr_spec (w.sup.actionErr a id)).2 e he
  simp only [apiHandle, withPM2, h, if_true]
  exact ⟨key "restart", key "stop", key "delete"⟩

/-- Witness for C8 in a ready world whose supervisor succeeds: a single
restart call is traced and the body is `{ok: true, error: null}`. -/
theorem c8_single_call_witness :
    (apiHandle "/home/omega" wReady (ApiOp.restart "3")).2
        = [Ev.evSupAction "restart" "3"] ∧
    (apiHandle "/home/omega" wReady (ApiOp.restart "3")).1 = Resp.okErr true none :=
  ⟨(c8_single_call_ok_iff_no_error "/home/omega" wReady "3" rfl).1.1,
   ((c8_single_call_ok_iff_no_error "/home/omega" wReady "3" rfl).1.2.1).mpr rfl⟩

/-- Claim C9 counterexample: the claim asserts a start request whose
instances value is not a positive integer is rejected before dispatch.
The start route never inspects `instances` (server.js:124-132): with
`instances = 0` and an otherwise valid script the supervisor start is
dispatched with instances 0 and the route answers 200. -/
theorem c9_instances_not_validated :
    (startRoute "/home/omega" (fun p => p == "/home/omega/x.js") supOk
        ⟨some "x.js", some "w", none, some 0, none⟩).1 = Resp.okStart ∧
    (startRoute "/home/omega" (fun p => p == "/home/omega/x.js") supOk
        ⟨some "x.js", some "w", none, some 0, none⟩).2
      = [Ev.evFsExists "/home/omega/x.js", Ev.evCheck "/home/omega/x.js" true,
         Ev.evSupStart "/home/omega/x.js" "w" [] 0 "fork" "/home/omega"] := by
  decide

/-- Claim C9, amended: `instances` defaults to 1 when absent and is
otherwise forwarded to the supervisor exactly as received, with no
positivity or integrality validation: whenever the script and name are
present, the file exists and the prefix check passes, the dispatched
start carries `instances = b.instances.getD 1` whatever that value is. -/
theorem c9_instances_forwarded (base : String) (fs : String → Bool) (sup : Sup)
    (b : StartBody)
    (h1 : falsyStr b.script = false) (h2 : falsyStr b.name = false)
    (h3 : fs (resolvePath base (b.script.getD "")) = true)
    (h4 : jsStartsWith (resolvePath base (b.script.getD "")) (resolveBase base) = true) :
    (startRoute base fs sup b).2
      = [Ev.evFsExists (resolvePath base (b.script.getD "")),
         Ev.evCheck (resolvePath base (b.script.getD "")) true,
         Ev.evSupStart (resolvePath base (b.script.getD "")) (b.name.getD "")
           (b.args.getD []) (b.instances.getD 1) (b.exec_mode.getD "fork")
           (dirname (resolvePath base (b.script.getD "")))] := by
  unfold startRoute
  dsimp only
  rw [h1, h2]
  simp only [Bool.or_self, Bool.false_or, if_false, h3, h4]
  cases sup.startErr <;> rfl

/-- Witness for C9 amended: a request with `instances = 0` is forwarded
with instances 0. -/
theorem c9_instances_forwarded_witness :
    (startRoute "/home/omega" (fun p => p == "/home/omega/y.js") supOk
        ⟨some "y.js", some "w", none, some 0, none⟩).2
      = [Ev.evFsExists (resolvePath "/home/omega" "y.js"),
         Ev.evCheck (resolvePath "/home/omega" "y.js") true,
         Ev.evSupStart (resolvePath "/home/omega" "y.js") "w" [] 0 "fork"
           (dirname (resolvePath "/home/omega" "y.js"))] :=
  c9_instances_forwarded "/home/omega" (fun p => p == "/home/omega/y.js") supOk
    ⟨some "y.js", some "w", none, some 0, none⟩
    (by decide) (by decide) (by decide) (by decide)

/-- Claim C10: in the logs route the stderr log path is selected exactly
when the query parameter equals the string `err`; any other value,
including an absent parameter, selects the stdout path; and no value of
the parameter causes a rejection — for a known process the response is
always a 200 (placeholder text or stream). -/
theorem c10_log_stream_selection (fs : String → Bool) (sup : Sup) (id : String)
    (t : Option String) (d : PDesc) (rest : List PDesc)
    (h : sup.describe id = some (d :: rest)) :
    (t = some "err" → selLogPath t d = d.pm_err_log_path) ∧
    (t ≠ some "err" → selLogPath t d = d.pm_out_log_path) ∧
    ((logsRoute fs sup id t).1
        = Resp.textBody ("Log for " ++ t.getD "undefined" ++ " not found.") ∨
      (logsRoute fs sup id t).1 = Resp.textStream (selLogPath t d)) ∧
    Resp.statusCode (logsRoute fs sup id t).1 = 200 := by
  refine ⟨?_, ?_, ?_⟩
  · intro ht
    simp [selLogPath, ht]
  · intro ht
    simp [selLogPath, ht]
  · cases hf : fs (selLogPath t d) <;>
      simp [logsRoute, h, hf, Resp.statusCode]

/-- Witness for C10: for the known process, the parameter value `banana`
selects the stdout log path and the response is a 200. -/
theorem c10_log_stream_selection_witness :
    selLogPath (some "banana") ⟨"/logs/e1.log", "/logs/o1.log"⟩ = "/logs/o1.log" ∧
    Resp.statusCode ((logsRoute (fun _ => false) supBook "1" (some "banana")).1) = 200 :=
  ⟨((c10_log_stream_selection (fun _ => false) supBook "1" (some "banana")
      ⟨"/logs/e1.log", "/logs/o1.log"⟩ [] (by decide)).2.1) (by decide),
   (c10_log_stream_selection (fun _ => false) supBook "1" (some "banana")
      ⟨"/logs/e1.log", "/logs/o1.log"⟩ [] (by decide)).2.2.2⟩

end PM2WM
